import Mathlib

/-!
Shallow embedding of `pkg/nuclide-debugger/lib/BreakpointDisplayController.js`.

The controller keeps gutter markers synchronized with the breakpoint store's
row set for one editor, interprets gutter pointer gestures, and feeds
edit-driven marker changes back into store mutations.  Pure functions below
mirror the source methods; stateful methods are modelled as explicit
state-passing functions whose results also record the side effects
(dispatched actions, created/destroyed markers, whether the store was read,
whether the gutter was shown).
-/

namespace BreakpointDisplayController

/-- A marker handle (`atom$Marker`).  Object identity is modelled by `id`;
`row` is `getStartBufferPosition().row`, the marker's current head row. -/
structure Marker where
  id : Nat
  row : Nat
deriving DecidableEq, Repr

/-- Atom marker invalidation strategies (the `invalidate` option of
`markBufferPosition`). -/
inductive InvalidatePolicy
  | never
  | surround
  | overlap
  | inside
  | touch
deriving DecidableEq, Repr

/-- The options record passed to `editor.markBufferPosition` on source line
246-248: `{invalidate: 'never'}`. -/
structure MarkerCreationOptions where
  invalidate : InvalidatePolicy
deriving DecidableEq, Repr

/-- Semantics of the buffer host (external collaborator, spec glossary:
a marker "optionally becom[es] invalid if its spanned text is removed"):
whether an edit that deletes the whole text spanning a marker flags it
invalid, per invalidation strategy.  Under `never` a marker is never marked
invalid; every other Atom strategy invalidates a marker whose entire spanned
text is deleted. -/
def invalidatedOnSpanningTextDeleted (p : InvalidatePolicy) : Bool :=
  match p with
  | .never => false
  | _ => true

/-- Result of `_createBreakpointMarkerAtLine`: the marker together with the
creation options it was given and the CSS class of its gutter decoration. -/
structure CreatedMarker where
  marker : Marker
  options : MarkerCreationOptions
  className : String
deriving DecidableEq, Repr

/-- `_createBreakpointMarkerAtLine` (lines 242-255): creates a marker at
`[line, 0]` with `invalidate: 'never'`, then `invariant(this._gutter != null)`
aborts with an invariant violation when the gutter reference is null;
otherwise the marker is decorated on the gutter and returned.  `nextId` is
the fresh identity given to the new marker object. -/
def createBreakpointMarkerAtLine (gutter : Option Unit) (line : Nat)
    (isShadow : Bool) (nextId : Nat) : Except String CreatedMarker :=
  match gutter with
  | none => Except.error "Invariant violation"
  | some _ =>
      Except.ok
        { marker := { id := nextId, row := line }
          options := { invalidate := InvalidatePolicy.never }
          className :=
            if isShadow then "nuclide-debugger-shadow-breakpoint-icon"
            else "nuclide-debugger-breakpoint-icon" }

/-- Breakpoint-store mutations dispatched through `DebuggerActions`. -/
inductive Action
  | deleteBreakpoint (path : String) (row : Nat)
  | addBreakpoint (path : String) (row : Nat)
  | toggleBreakpoint (path : String) (row : Nat)
deriving DecidableEq, Repr

/-- The marker-changed event payload consumed by `_handleMarkerChange`
(only the fields the handler reads). -/
structure MarkerChangeEvent where
  isValid : Bool
  oldHeadBufferPositionRow : Nat
  newHeadBufferPositionRow : Nat
deriving DecidableEq, Repr

/-- `_handleMarkerChange` (lines 168-179).  `path` is
`this._editor.getPath()` (`none` when the editor has no path).  Returns the
list of actions dispatched, in dispatch order. -/
def handleMarkerChange (path : Option String) (event : MarkerChangeEvent) :
    List Action :=
  match path with
  | none => []
  | some p =>
      if !event.isValid then
        [Action.deleteBreakpoint p event.newHeadBufferPositionRow]
      else if event.oldHeadBufferPositionRow != event.newHeadBufferPositionRow then
        [Action.deleteBreakpoint p event.oldHeadBufferPositionRow,
         Action.addBreakpoint p event.newHeadBufferPositionRow]
      else []

/-- The click event data consumed by `_handleGutterClick`:
`targetHasIconRight` is `target.classList.contains('icon-right')`, and `row`
is the row the external coordinate-to-position service maps the pointer to
(`bufferPositionForMouseEvent(event, this._editor).row`, read via
`_getCurrentMouseEventLine`). -/
structure GutterClickEvent where
  targetHasIconRight : Bool
  row : Nat
deriving DecidableEq, Repr

/-- `_handleGutterClick` (lines 187-199): ignore clicks whose target carries
the `icon-right` class; otherwise, when the editor has a path, dispatch one
`toggleBreakpoint` at the mouse-event line. -/
def handleGutterClick (path : Option String) (event : GutterClickEvent) :
    List Action :=
  if event.targetHasIconRight then []
  else
    match path with
    | none => []
    | some p => [Action.toggleBreakpoint p event.row]

/-- The breakpoint store (external collaborator, spec section 6):
`getBreakpointsForPath(path)` returns a map keyed by the breakpoint rows for
`path` and `getBreakpointLinesForPath(path)` returns a fresh mutable set of
the same rows, so both are derived here from one list of rows per path.
JavaScript `Map`/`Set` keys are unique, so the list is `Nodup` whenever the
store is well formed. -/
structure BreakpointStore where
  breakpointLines : String → List Nat

/-- Result of one `_update` pass: the new `this._markers`, the markers
destroyed and created during the pass, whether the gutter was shown, whether
the store was read, and the fresh-identity counter after the pass. -/
structure UpdateResult where
  markers : List Marker
  destroyed : List Marker
  created : List Marker
  gutterShown : Bool
  storeRead : Bool
  nextId : Nat
deriving DecidableEq, Repr

/-- First loop of `_update` (lines 136-145): walk `this._markers` in order;
a marker whose current row is still in `unhandledLines` is pushed onto
`markersToKeep` and its row deleted from `unhandledLines`; any other marker
is destroyed.  Returns `(markersToKeep, unhandledLines, destroyed)`. -/
def keepOrDestroyMarkers : List Marker → Finset Nat →
    List Marker × Finset Nat × List Marker
  | [], unhandledLines => ([], unhandledLines, [])
  | m :: rest, unhandledLines =>
      if m.row ∈ unhandledLines then
        let r := keepOrDestroyMarkers rest (unhandledLines.erase m.row)
        (m :: r.1, r.2.1, r.2.2)
      else
        let r := keepOrDestroyMarkers rest unhandledLines
        (r.1, r.2.1, m :: r.2.2)

/-- Second loop of `_update` (lines 147-159): for each breakpoint line (in
store iteration order), skip it when it is no longer unhandled, otherwise
create a fresh marker at that line (via `_createBreakpointMarkerAtLine` with
`isShadow = false`, which succeeds since this runs only after the
gutter-null early return) and push it onto `markersToKeep`.  Fresh marker
objects are given identities `nextId, nextId+1, ...`. -/
def createMissingMarkers (lines : List Nat) (unhandledLines : Finset Nat)
    (nextId : Nat) : List Marker :=
  match lines with
  | [] => []
  | l :: rest =>
      if l ∈ unhandledLines then
        { id := nextId, row := l } :: createMissingMarkers rest unhandledLines (nextId + 1)
      else
        createMissingMarkers rest unhandledLines nextId

/-- `_update` (lines 121-163): return immediately when the gutter reference
is null, then when the editor has no path; otherwise read the breakpoint
rows and the unhandled-lines set from the store, keep or destroy existing
markers, create markers for still-unhandled breakpoint lines, show the
gutter, and install `markersToKeep` as the new `this._markers`. -/
def update (gutter : Option Unit) (path : Option String)
    (store : BreakpointStore) (markers : List Marker) (nextId : Nat) :
    UpdateResult :=
  match gutter with
  | none =>
      { markers := markers, destroyed := [], created := [],
        gutterShown := false, storeRead := false, nextId := nextId }
  | some _ =>
      match path with
      | none =>
          { markers := markers, destroyed := [], created := [],
            gutterShown := false, storeRead := false, nextId := nextId }
      | some p =>
          let breakpoints := store.breakpointLines p
          let unhandledLines := breakpoints.toFinset
          let r := keepOrDestroyMarkers markers unhandledLines
          let created := createMissingMarkers breakpoints r.2.1 nextId
          { markers := r.1 ++ created, destroyed := r.2.2, created := created,
            gutterShown := true, storeRead := true,
            nextId := nextId + created.length }

/-- Gesture-controller state: `lastShadowBreakpointMarker` holds the row of
the current shadow marker (`none` when `this._lastShadowBreakpointMarker`
is null), and the two counters record how many shadow markers have been
created and destroyed so far (instrumentation of the side effects). -/
structure HoverState where
  lastShadowBreakpointMarker : Option Nat
  shadowCreations : Nat
  shadowDestructions : Nat
deriving DecidableEq, Repr

/-- Controller construction sets `this._lastShadowBreakpointMarker = null`
(line 55); no shadow marker has been created or destroyed yet. -/
def initialHoverState : HoverState :=
  { lastShadowBreakpointMarker := none, shadowCreations := 0, shadowDestructions := 0 }

/-- `_isLineOverLastShadowBreakpoint` (lines 222-226). -/
def isLineOverLastShadowBreakpoint (s : HoverState) (curLine : Nat) : Bool :=
  match s.lastShadowBreakpointMarker with
  | none => false
  | some r => r == curLine

/-- `_removeLastShadowBreakpoint` (lines 228-233): destroy the shadow marker
if present and null the reference. -/
def removeLastShadowBreakpoint (s : HoverState) : HoverState :=
  match s.lastShadowBreakpointMarker with
  | none => s
  | some _ =>
      { lastShadowBreakpointMarker := none,
        shadowCreations := s.shadowCreations,
        shadowDestructions := s.shadowDestructions + 1 }

/-- `_handleGutterMouseMove` (lines 207-216), for a live gutter (marker
creation succeeds): no-op when the pointer is over the current shadow
marker's line, otherwise remove the old shadow marker and create a new one
at the current line. -/
def handleGutterMouseMoveOk (s : HoverState) (curLine : Nat) : HoverState :=
  if isLineOverLastShadowBreakpoint s curLine then s
  else
    let s1 := removeLastShadowBreakpoint s
    { lastShadowBreakpointMarker := some curLine,
      shadowCreations := s1.shadowCreations + 1,
      shadowDestructions := s1.shadowDestructions }

/-- `_handleGutterMouseMove` with the gutter reference threaded through:
`_createShadowBreakpointAtLine` calls `_createBreakpointMarkerAtLine`,
whose `invariant(this._gutter != null)` aborts when the gutter is null. -/
def handleGutterMouseMove (gutter : Option Unit) (s : HoverState)
    (curLine : Nat) (nextId : Nat) : Except String HoverState :=
  if isLineOverLastShadowBreakpoint s curLine then Except.ok s
  else
    let s1 := removeLastShadowBreakpoint s
    match createBreakpointMarkerAtLine gutter curLine true nextId with
    | Except.error e => Except.error e
    | Except.ok c =>
        Except.ok
          { lastShadowBreakpointMarker := some c.marker.row,
            shadowCreations := s1.shadowCreations + 1,
            shadowDestructions := s1.shadowDestructions }

/-- `_handleGutterMouseLeave` (lines 218-220). -/
def handleGutterMouseLeave (s : HoverState) : HoverState :=
  removeLastShadowBreakpoint s

/-- The pointer events handled by the gesture controller. -/
inductive GutterPointerEvent
  | move (row : Nat)
  | leave
deriving DecidableEq, Repr

/-- One pointer event applied to the gesture-controller state (gutter live). -/
def stepPointer (s : HoverState) : GutterPointerEvent → HoverState
  | .move row => handleGutterMouseMoveOk s row
  | .leave => handleGutterMouseLeave s

/-- A sequence of pointer events applied from construction onwards. -/
def runPointer (events : List GutterPointerEvent) : HoverState :=
  events.foldl stepPointer initialHoverState

/-- The number of shadow markers currently alive (created, not destroyed). -/
def liveShadowMarkers (s : HoverState) : Nat :=
  s.shadowCreations - s.shadowDestructions

/-- The controller state that `dispose` consumes: the nullable gutter
reference, the committed markers array `this._markers`, and the nullable
shadow-marker reference. -/
structure ControllerState where
  gutter : Option Unit
  markers : List Marker
  lastShadowBreakpointMarker : Option Marker
deriving DecidableEq, Repr

/-- What `dispose` did: which markers were destroyed, whether the gutter was
destroyed, and whether the event subscriptions were disposed. -/
structure DisposeResult where
  destroyedMarkers : List Marker
  gutterDestroyed : Bool
  disposablesDisposed : Bool
deriving DecidableEq, Repr

/-- `dispose` (lines 93-99): dispose the subscriptions, destroy every marker
in `this._markers`, and destroy the gutter when the reference is non-null.
All of it runs synchronously in this one call; nothing else is destroyed. -/
def dispose (s : ControllerState) : DisposeResult :=
  { destroyedMarkers := s.markers
    gutterDestroyed := s.gutter.isSome
    disposablesDisposed := true }

/-- Gesture-controller bookkeeping invariant: the number of shadow markers
created always exceeds the number destroyed by exactly one while a shadow
marker is referenced, and equals it otherwise. -/
def hoverInvariant (s : HoverState) : Prop :=
  s.shadowCreations = s.shadowDestructions +
    (if s.lastShadowBreakpointMarker.isSome then 1 else 0)

theorem stepPointer_hoverInvariant (s : HoverState) (e : GutterPointerEvent)
    (h : hoverInvariant s) : hoverInvariant (stepPointer s e) := by
  cases e with
  | move row =>
      cases hs : s.lastShadowBreakpointMarker with
      | none =>
          simp [hoverInvariant, hs] at h
          simp [stepPointer, handleGutterMouseMoveOk, isLineOverLastShadowBreakpoint,
            removeLastShadowBreakpoint, hoverInvariant, hs, h]
      | some r =>
          simp [hoverInvariant, hs] at h
          by_cases hr : r = row
          · simp [stepPointer, handleGutterMouseMoveOk, isLineOverLastShadowBreakpoint,
              hoverInvariant, hs, hr, h]
          · simp [stepPointer, handleGutterMouseMoveOk, isLineOverLastShadowBreakpoint,
              removeLastShadowBreakpoint, hoverInvariant, hs, hr, h]
  | leave =>
      cases hs : s.lastShadowBreakpointMarker with
      | none =>
          simp [hoverInvariant, hs] at h
          simp [stepPointer, handleGutterMouseLeave, removeLastShadowBreakpoint,
            hoverInvariant, hs, h]
      | some r =>
          simp [hoverInvariant, hs] at h
          simp [stepPointer, handleGutterMouseLeave, removeLastShadowBreakpoint,
            hoverInvariant, hs, h]

theorem foldl_stepPointer_hoverInvariant (events : List GutterPointerEvent) :
    ∀ s : HoverState, hoverInvariant s →
      hoverInvariant (events.foldl stepPointer s) := by
  induction events with
  | nil => intro s h; exact h
  | cons e rest ih =>
      intro s h
      exact ih (stepPointer s e) (stepPointer_hoverInvariant s e h)

theorem runPointer_hoverInvariant (events : List GutterPointerEvent) :
    hoverInvariant (runPointer events) :=
  foldl_stepPointer_hoverInvariant events initialHoverState (by simp [hoverInvariant, initialHoverState])

/-- One mouse-move from a state with a shadow marker at a different line
destroys one shadow marker and creates one at the new line. -/
theorem handleGutterMouseMoveOk_fresh (r row c d : Nat) (h : r ≠ row) :
    handleGutterMouseMoveOk (HoverState.mk (some r) c d) row =
      HoverState.mk (some row) (c + 1) (d + 1) := by
  simp [handleGutterMouseMoveOk, isLineOverLastShadowBreakpoint,
    removeLastShadowBreakpoint, h]

/-- Moving across a chain of pairwise-adjacent-distinct rows from a hovering
state performs one creation and one destruction per row. -/
theorem foldl_moves_from_hovering (rows : List Nat) :
    ∀ (r c d : Nat), List.Chain' (· ≠ ·) (r :: rows) →
      ∃ r' : Nat,
        (rows.map GutterPointerEvent.move).foldl stepPointer
            (HoverState.mk (some r) c d) =
          HoverState.mk (some r') (c + rows.length) (d + rows.length) := by
  induction rows with
  | nil =>
      intro r c d _
      exact ⟨r, by simp⟩
  | cons r2 rest ih =>
      intro r c d hchain
      rw [List.chain'_cons] at hchain
      obtain ⟨hne, hchain2⟩ := hchain
      obtain ⟨r', hr'⟩ := ih r2 (c + 1) (d + 1) hchain2
      refine ⟨r', ?_⟩
      simp only [List.map_cons, List.foldl_cons, stepPointer,
        handleGutterMouseMoveOk_fresh r r2 c d hne]
      rw [hr']
      simp only [List.length_cons, HoverState.mk.injEq]
      exact ⟨trivial, by omega, by omega⟩

/-- C4: at most one shadow marker is ever alive; a pointer-move to the
currently hovered row is a no-op; and from construction, pointer-moves
across N pairwise-distinct rows perform exactly N shadow-marker creations
and N - 1 shadow-marker destructions. -/
theorem hover_shadow_spec :
    (∀ events : List GutterPointerEvent,
        liveShadowMarkers (runPointer events) ≤ 1) ∧
    (∀ (s : HoverState) (curLine : Nat),
        s.lastShadowBreakpointMarker = some curLine →
        handleGutterMouseMoveOk s curLine = s) ∧
    (∀ rows : List Nat, rows.Nodup → rows ≠ [] →
        (runPointer (rows.map GutterPointerEvent.move)).shadowCreations
            = rows.length ∧
        (runPointer (rows.map GutterPointerEvent.move)).shadowDestructions
            = rows.length - 1) := by
  refine ⟨?_, ?_, ?_⟩
  · intro events
    have h := runPointer_hoverInvariant events
    unfold hoverInvariant at h
    unfold liveShadowMarkers
    split at h <;> omega
  · intro s curLine h
    simp [handleGutterMouseMoveOk, isLineOverLastShadowBreakpoint, h]
  · intro rows hnodup hne
    cases rows with
    | nil => exact absurd rfl hne
    | cons r1 tail =>
        have hchain : List.Chain' (· ≠ ·) (r1 :: tail) :=
          List.Pairwise.chain' hnodup
        have hfirst :
            stepPointer initialHoverState (GutterPointerEvent.move r1) =
              HoverState.mk (some r1) 1 0 := by
          simp [stepPointer, handleGutterMouseMoveOk,
            isLineOverLastShadowBreakpoint, removeLastShadowBreakpoint,
            initialHoverState]
        obtain ⟨r', hr'⟩ := foldl_moves_from_hovering tail r1 1 0 hchain
        have hrun :
            runPointer ((r1 :: tail).map GutterPointerEvent.move) =
              HoverState.mk (some r') (1 + tail.length) (0 + tail.length) := by
          unfold runPointer
          rw [List.map_cons, List.foldl_cons, hfirst, hr']
        rw [hrun]
        simp only [List.length_cons]
        constructor <;> omega

/-- Witness for C4: a concrete gesture sequence, a no-op move while hovering
row 4, and a sweep across the two distinct rows 3 and 5. -/
theorem hover_shadow_spec_witness :
    liveShadowMarkers (runPointer
        [GutterPointerEvent.move 1, GutterPointerEvent.move 2,
         GutterPointerEvent.leave]) ≤ 1 ∧
    handleGutterMouseMoveOk (HoverState.mk (some 4) 1 0) 4 =
      HoverState.mk (some 4) 1 0 ∧
    ((runPointer [GutterPointerEvent.move 3, GutterPointerEvent.move 5]).shadowCreations = 2 ∧
     (runPointer [GutterPointerEvent.move 3, GutterPointerEvent.move 5]).shadowDestructions = 1) :=
  ⟨hover_shadow_spec.1
      [GutterPointerEvent.move 1, GutterPointerEvent.move 2, GutterPointerEvent.leave],
   hover_shadow_spec.2.1 (HoverState.mk (some 4) 1 0) 4 rfl,
   hover_shadow_spec.2.2 [3, 5] (by decide) (by decide)⟩

/-- A concrete store used by witnesses: rows `[2, 5, 9]` for every path. -/
def sampleStore : BreakpointStore :=
  { breakpointLines := fun _ => [2, 5, 9] }

theorem keepOrDestroyMarkers_eq (markers : List Marker) (u : Finset Nat)
    (h : (markers.map Marker.row).Nodup) :
    keepOrDestroyMarkers markers u =
      (markers.filter (fun m => decide (m.row ∈ u)),
       u \ (markers.map Marker.row).toFinset,
       markers.filter (fun m => decide (m.row ∉ u))) := by
  induction markers generalizing u with
  | nil => simp [keepOrDestroyMarkers]
  | cons m rest ih =>
      rw [List.map_cons, List.nodup_cons] at h
      obtain ⟨hm, hrest⟩ := h
      have hne : ∀ m' ∈ rest, m'.row ≠ m.row := by
        intro m' hm' heq
        exact hm (heq ▸ List.mem_map_of_mem Marker.row hm')
      by_cases hmem : m.row ∈ u
      · have h1 : rest.filter (fun m' => decide (m'.row ∈ u.erase m.row)) =
            rest.filter (fun m' => decide (m'.row ∈ u)) := by
          refine List.filter_congr ?_
          intro m' hm'
          simp [Finset.mem_erase, hne m' hm']
        have h2 : rest.filter (fun m' => decide (m'.row ∉ u.erase m.row)) =
            rest.filter (fun m' => decide (m'.row ∉ u)) := by
          refine List.filter_congr ?_
          intro m' hm'
          simp [Finset.mem_erase, hne m' hm']
        have h3 : u.erase m.row \ (rest.map Marker.row).toFinset =
            u \ ((m :: rest).map Marker.row).toFinset := by
          ext x
          simp only [Finset.mem_sdiff, Finset.mem_erase, List.map_cons,
            List.toFinset_cons, Finset.mem_insert, List.mem_toFinset]
          tauto
        rw [keepOrDestroyMarkers, if_pos hmem, ih _ hrest, h1, h2, h3]
        simp [List.filter_cons, hmem]
      · have h3 : u \ (rest.map Marker.row).toFinset =
            u \ ((m :: rest).map Marker.row).toFinset := by
          ext x
          simp only [Finset.mem_sdiff, List.map_cons, List.toFinset_cons,
            Finset.mem_insert, List.mem_toFinset]
          constructor
          · rintro ⟨hx1, hx2⟩
            refine ⟨hx1, fun hc => ?_⟩
            rcases hc with hc | hc
            · exact hmem (hc ▸ hx1)
            · exact hx2 hc
          · rintro ⟨hx1, hx2⟩
            exact ⟨hx1, fun hc => hx2 (Or.inr hc)⟩
        rw [keepOrDestroyMarkers, if_neg hmem, ih _ hrest, h3]
        simp [List.filter_cons, hmem]

theorem createMissingMarkers_map_row (lines : List Nat) :
    ∀ (u : Finset Nat) (nextId : Nat),
      (createMissingMarkers lines u nextId).map Marker.row =
        lines.filter (fun l => decide (l ∈ u)) := by
  induction lines with
  | nil => intro u nextId; simp [createMissingMarkers]
  | cons l rest ih =>
      intro u nextId
      by_cases hl : l ∈ u
      · simp [createMissingMarkers, hl, List.filter_cons, ih]
      · simp [createMissingMarkers, hl, List.filter_cons, ih]

theorem createMissingMarkers_of_empty (lines : List Nat) :
    ∀ nextId : Nat, createMissingMarkers lines ∅ nextId = [] := by
  induction lines with
  | nil => intro nextId; simp [createMissingMarkers]
  | cons l rest ih => intro nextId; simp [createMissingMarkers, ih]

/-- Closed form of an `_update` pass with a live gutter and a path: kept
markers are exactly the existing markers whose row is a breakpoint row,
destroyed markers exactly the others, and fresh markers are created at the
breakpoint rows no existing marker covers. -/
theorem update_some_eq (p : String) (store : BreakpointStore)
    (markers : List Marker) (nextId : Nat)
    (hM : (markers.map Marker.row).Nodup) :
    update (some ()) (some p) store markers nextId =
      { markers :=
          markers.filter
              (fun m => decide (m.row ∈ (store.breakpointLines p).toFinset)) ++
            createMissingMarkers (store.breakpointLines p)
              ((store.breakpointLines p).toFinset \ (markers.map Marker.row).toFinset)
              nextId,
        destroyed :=
          markers.filter
            (fun m => decide (m.row ∉ (store.breakpointLines p).toFinset)),
        created :=
          createMissingMarkers (store.breakpointLines p)
            ((store.breakpointLines p).toFinset \ (markers.map Marker.row).toFinset)
            nextId,
        gutterShown := true, storeRead := true,
        nextId := nextId +
          (createMissingMarkers (store.breakpointLines p)
            ((store.breakpointLines p).toFinset \ (markers.map Marker.row).toFinset)
            nextId).length } := by
  simp only [update]
  rw [keepOrDestroyMarkers_eq markers _ hM]

theorem update_markers_row_toFinset (p : String) (store : BreakpointStore)
    (markers : List Marker) (nextId : Nat)
    (hM : (markers.map Marker.row).Nodup) :
    ((update (some ()) (some p) store markers nextId).markers.map Marker.row).toFinset
      = (store.breakpointLines p).toFinset := by
  rw [update_some_eq p store markers nextId hM]
  ext x
  simp only [List.map_append, List.toFinset_append, Finset.mem_union,
    List.mem_toFinset, List.mem_map, List.mem_filter,
    createMissingMarkers_map_row, decide_eq_true_eq, Finset.mem_sdiff]
  constructor
  · rintro (⟨m, ⟨_, hrow⟩, rfl⟩ | ⟨hx, _⟩)
    · exact hrow
    · exact hx
  · intro hx
    by_cases hcov : x ∈ (markers.map Marker.row).toFinset
    · rw [List.mem_toFinset, List.mem_map] at hcov
      obtain ⟨m, hmem, hrow⟩ := hcov
      exact Or.inl ⟨m, ⟨hmem, hrow ▸ hx⟩, hrow⟩
    · rw [List.mem_toFinset, List.mem_map] at hcov
      exact Or.inr ⟨hx, ⟨hx, hcov⟩⟩

theorem update_markers_row_nodup (p : String) (store : BreakpointStore)
    (markers : List Marker) (nextId : Nat)
    (hM : (markers.map Marker.row).Nodup)
    (hB : (store.breakpointLines p).Nodup) :
    ((update (some ()) (some p) store markers nextId).markers.map Marker.row).Nodup := by
  rw [update_some_eq p store markers nextId hM]
  rw [List.map_append, List.nodup_append]
  refine ⟨?_, ?_, ?_⟩
  · exact List.Nodup.sublist
      (List.Sublist.map Marker.row (List.filter_sublist markers)) hM
  · rw [createMissingMarkers_map_row]
    exact List.Nodup.filter _ hB
  · intro x hx1 hx2
    rw [createMissingMarkers_map_row, List.mem_filter] at hx2
    rw [List.mem_map] at hx1
    obtain ⟨m, hmem, hrow⟩ := hx1
    rw [List.mem_filter] at hmem
    have hx2' := hx2.2
    rw [decide_eq_true_eq, Finset.mem_sdiff] at hx2'
    exact hx2'.2 (List.mem_toFinset.mpr
      (hrow ▸ List.mem_map_of_mem Marker.row hmem.1))

theorem update_keeps_marker (p : String) (store : BreakpointStore)
    (markers : List Marker) (nextId : Nat)
    (hM : (markers.map Marker.row).Nodup)
    (m : Marker) (hmem : m ∈ markers)
    (hrow : m.row ∈ (store.breakpointLines p).toFinset) :
    m ∈ (update (some ()) (some p) store markers nextId).markers ∧
    m ∉ (update (some ()) (some p) store markers nextId).destroyed := by
  rw [update_some_eq p store markers nextId hM]
  constructor
  · exact List.mem_append_left _
      (List.mem_filter.mpr ⟨hmem, by simpa using hrow⟩)
  · intro hcontra
    rw [List.mem_filter, decide_eq_true_eq] at hcontra
    exact hcontra.2 hrow

/-- C1: with a live gutter and a path, one `_update` pass leaves the
committed marker list with exactly the store's breakpoint rows (one marker
per row), and every prior marker whose current row is still a breakpoint row
is kept as the identical marker instance, never destroyed. -/
theorem update_reconciles (p : String) (store : BreakpointStore)
    (markers : List Marker) (nextId : Nat)
    (hM : (markers.map Marker.row).Nodup)
    (hB : (store.breakpointLines p).Nodup) :
    (((update (some ()) (some p) store markers nextId).markers.map Marker.row).toFinset
        = (store.breakpointLines p).toFinset) ∧
    ((update (some ()) (some p) store markers nextId).markers.map Marker.row).Nodup ∧
    (∀ m ∈ markers, m.row ∈ (store.breakpointLines p).toFinset →
      m ∈ (update (some ()) (some p) store markers nextId).markers ∧
      m ∉ (update (some ()) (some p) store markers nextId).destroyed) :=
  ⟨update_markers_row_toFinset p store markers nextId hM,
   update_markers_row_nodup p store markers nextId hM hB,
   fun m hmem hrow => update_keeps_marker p store markers nextId hM m hmem hrow⟩

/-- Witness for C1: store rows `[2, 5, 9]`, prior markers at rows 5 and 7;
the marker at row 5 survives as the same instance and is not destroyed. -/
theorem update_reconciles_witness :
    (((update (some ()) (some "file.js") sampleStore [Marker.mk 0 5, Marker.mk 1 7] 10).markers.map
        Marker.row).toFinset = ([2, 5, 9] : List Nat).toFinset) ∧
    (Marker.mk 0 5 ∈
        (update (some ()) (some "file.js") sampleStore [Marker.mk 0 5, Marker.mk 1 7] 10).markers ∧
      Marker.mk 0 5 ∉
        (update (some ()) (some "file.js") sampleStore [Marker.mk 0 5, Marker.mk 1 7] 10).destroyed) :=
  ⟨(update_reconciles "file.js" sampleStore [Marker.mk 0 5, Marker.mk 1 7] 10
      (by decide) (by decide)).1,
   (update_reconciles "file.js" sampleStore [Marker.mk 0 5, Marker.mk 1 7] 10
      (by decide) (by decide)).2.2 (Marker.mk 0 5) (by decide) (by decide)⟩

/-- An `_update` pass whose existing markers already cover exactly the
breakpoint rows destroys nothing, creates nothing, and keeps the marker
list verbatim. -/
theorem update_unchanged (p : String) (store : BreakpointStore)
    (ms : List Marker) (n : Nat)
    (h1 : (ms.map Marker.row).Nodup)
    (h2 : (ms.map Marker.row).toFinset = (store.breakpointLines p).toFinset) :
    update (some ()) (some p) store ms n =
      { markers := ms, destroyed := [], created := [],
        gutterShown := true, storeRead := true, nextId := n } := by
  rw [update_some_eq p store ms n h1]
  have hkeep : ms.filter
      (fun m => decide (m.row ∈ (store.breakpointLines p).toFinset)) = ms := by
    rw [List.filter_eq_self]
    intro m hm
    rw [decide_eq_true_eq, ← h2]
    exact List.mem_toFinset.mpr (List.mem_map_of_mem Marker.row hm)
  have hsdiff : (store.breakpointLines p).toFinset \ (ms.map Marker.row).toFinset
      = ∅ := by
    rw [h2]
    exact Finset.sdiff_self _
  have hdestr : ms.filter
      (fun m => decide (m.row ∉ (store.breakpointLines p).toFinset)) = [] := by
    rw [List.filter_eq_nil_iff]
    intro m hm
    rw [decide_eq_true_eq, not_not, ← h2]
    exact List.mem_toFinset.mpr (List.mem_map_of_mem Marker.row hm)
  rw [hkeep, hsdiff, hdestr, createMissingMarkers_of_empty]
  simp

/-- C6: reconciliation is idempotent — a second `_update` pass with the
breakpoint set unchanged destroys zero markers, creates zero markers, and
leaves the very same marker instances in place. -/
theorem update_idempotent (p : String) (store : BreakpointStore)
    (markers : List Marker) (nextId : Nat)
    (hM : (markers.map Marker.row).Nodup)
    (hB : (store.breakpointLines p).Nodup) :
    update (some ()) (some p) store
        (update (some ()) (some p) store markers nextId).markers
        (update (some ()) (some p) store markers nextId).nextId =
      { markers := (update (some ()) (some p) store markers nextId).markers,
        destroyed := [], created := [], gutterShown := true, storeRead := true,
        nextId := (update (some ()) (some p) store markers nextId).nextId } :=
  update_unchanged p store _ _
    (update_markers_row_nodup p store markers nextId hM hB)
    (update_markers_row_toFinset p store markers nextId hM)

/-- Witness for C6 at the sample store with prior markers at rows 5 and 7. -/
theorem update_idempotent_witness :
    update (some ()) (some "file.js") sampleStore
        (update (some ()) (some "file.js") sampleStore [Marker.mk 0 5, Marker.mk 1 7] 10).markers
        (update (some ()) (some "file.js") sampleStore [Marker.mk 0 5, Marker.mk 1 7] 10).nextId =
      { markers :=
          (update (some ()) (some "file.js") sampleStore [Marker.mk 0 5, Marker.mk 1 7] 10).markers,
        destroyed := [], created := [], gutterShown := true, storeRead := true,
        nextId :=
          (update (some ()) (some "file.js") sampleStore [Marker.mk 0 5, Marker.mk 1 7] 10).nextId } :=
  update_idempotent "file.js" sampleStore [Marker.mk 0 5, Marker.mk 1 7] 10
    (by decide) (by decide)

/-- C3: for a marker-change event on a committed marker that stays valid and
whose head row changed, when the editor has a path the handler dispatches
exactly one `deleteBreakpoint(path, oldRow)` and exactly one
`addBreakpoint(path, newRow)`, with the delete dispatched before the add. -/
theorem markerChange_move_dispatches (p : String) (e : MarkerChangeEvent)
    (hv : e.isValid = true)
    (hr : e.oldHeadBufferPositionRow ≠ e.newHeadBufferPositionRow) :
    handleMarkerChange (some p) e =
      [Action.deleteBreakpoint p e.oldHeadBufferPositionRow,
       Action.addBreakpoint p e.newHeadBufferPositionRow] := by
  simp [handleMarkerChange, hv, bne_iff_ne, hr]

/-- Witness for C3 at the concrete event (valid, row 3 to row 5). -/
theorem markerChange_move_dispatches_witness :
    handleMarkerChange (some "file.js")
        { isValid := true, oldHeadBufferPositionRow := 3, newHeadBufferPositionRow := 5 } =
      [Action.deleteBreakpoint "file.js" 3, Action.addBreakpoint "file.js" 5] :=
  markerChange_move_dispatches "file.js"
    { isValid := true, oldHeadBufferPositionRow := 3, newHeadBufferPositionRow := 5 }
    rfl (by decide)

/-- C10: a marker-change event on a marker that remains valid with an
unchanged head row dispatches nothing, whatever the editor's path. -/
theorem markerChange_samerow_noop (path : Option String) (e : MarkerChangeEvent)
    (hv : e.isValid = true)
    (hr : e.oldHeadBufferPositionRow = e.newHeadBufferPositionRow) :
    handleMarkerChange path e = [] := by
  cases path <;> simp [handleMarkerChange, hv, hr]

/-- Witness for C10 at the concrete event (valid, row 4 to row 4). -/
theorem markerChange_samerow_noop_witness :
    handleMarkerChange (some "file.js")
        { isValid := true, oldHeadBufferPositionRow := 4, newHeadBufferPositionRow := 4 } = [] :=
  markerChange_samerow_noop (some "file.js")
    { isValid := true, oldHeadBufferPositionRow := 4, newHeadBufferPositionRow := 4 }
    rfl rfl

/-- C2 counterexample: the marker created by `_createBreakpointMarkerAtLine`
at line 4 carries `invalidate: 'never'`, and under that strategy an edit
deleting the text spanning the marker does NOT flag it invalid — refuting
the claim that committed markers are created so as to be flagged invalid
when their spanning text is deleted. -/
theorem marker_created_never_invalidated :
    createBreakpointMarkerAtLine (some ()) 4 false 0 =
      Except.ok
        { marker := { id := 0, row := 4 },
          options := { invalidate := InvalidatePolicy.never },
          className := "nuclide-debugger-breakpoint-icon" } ∧
    invalidatedOnSpanningTextDeleted InvalidatePolicy.never = false :=
  ⟨rfl, rfl⟩

/-- C2 amended: every marker is created with invalidation strategy `never`
(so deleting its spanning text never flags it invalid), and when a
marker-change event does report the marker invalid, the handler dispatches
exactly one `deleteBreakpoint(path, lastKnownRow)` and no `addBreakpoint`. -/
theorem marker_invalidate_policy_spec :
    (∀ (g : Option Unit) (line : Nat) (isShadow : Bool) (nextId : Nat)
        (c : CreatedMarker),
        createBreakpointMarkerAtLine g line isShadow nextId = Except.ok c →
        c.options.invalidate = InvalidatePolicy.never ∧
        invalidatedOnSpanningTextDeleted c.options.invalidate = false) ∧
    (∀ (p : String) (e : MarkerChangeEvent), e.isValid = false →
        handleMarkerChange (some p) e =
          [Action.deleteBreakpoint p e.newHeadBufferPositionRow]) := by
  constructor
  · intro g line isShadow nextId c hc
    cases g with
    | none => simp [createBreakpointMarkerAtLine] at hc
    | some u =>
        simp only [createBreakpointMarkerAtLine, Except.ok.injEq] at hc
        subst hc
        exact ⟨rfl, rfl⟩
  · intro p e he
    simp [handleMarkerChange, he]

/-- Witness for C2 at line 7 (shadow marker) and an invalid event at row 4. -/
theorem marker_invalidate_policy_spec_witness :
    ((CreatedMarker.mk (Marker.mk 3 7) (MarkerCreationOptions.mk InvalidatePolicy.never)
        "nuclide-debugger-shadow-breakpoint-icon").options.invalidate
        = InvalidatePolicy.never ∧
      invalidatedOnSpanningTextDeleted
        (CreatedMarker.mk (Marker.mk 3 7) (MarkerCreationOptions.mk InvalidatePolicy.never)
          "nuclide-debugger-shadow-breakpoint-icon").options.invalidate = false) ∧
    handleMarkerChange (some "file.js")
        { isValid := false, oldHeadBufferPositionRow := 4, newHeadBufferPositionRow := 4 } =
      [Action.deleteBreakpoint "file.js" 4] :=
  ⟨marker_invalidate_policy_spec.1 (some ()) 7 true 3
      (CreatedMarker.mk (Marker.mk 3 7) (MarkerCreationOptions.mk InvalidatePolicy.never)
        "nuclide-debugger-shadow-breakpoint-icon") rfl,
   marker_invalidate_policy_spec.2 "file.js"
      { isValid := false, oldHeadBufferPositionRow := 4, newHeadBufferPositionRow := 4 } rfl⟩

/-- C5 counterexample: dispose of a controller whose shadow marker is
present (marker `⟨0, 5⟩`) does not destroy that shadow marker — only
`this._markers` and the gutter are destroyed. -/
theorem dispose_shadow_marker_leaked :
    (ControllerState.mk (some ()) [] (some (Marker.mk 0 5))).lastShadowBreakpointMarker
        = some (Marker.mk 0 5) ∧
    Marker.mk 0 5 ∉
      (dispose (ControllerState.mk (some ()) [] (some (Marker.mk 0 5)))).destroyedMarkers := by
  exact ⟨rfl, by simp [dispose]⟩

/-- C5 amended: dispose synchronously disposes the subscriptions, destroys
exactly the committed markers, and destroys the gutter iff the gutter
reference is still non-null; the shadow marker (which is never stored in
`this._markers`) is not destroyed. -/
theorem dispose_spec (s : ControllerState) :
    (dispose s).disposablesDisposed = true ∧
    (dispose s).destroyedMarkers = s.markers ∧
    ((dispose s).gutterDestroyed = true ↔ s.gutter.isSome = true) ∧
    (∀ m : Marker, s.lastShadowBreakpointMarker = some m → m ∉ s.markers →
      m ∉ (dispose s).destroyedMarkers) := by
  refine ⟨rfl, rfl, Iff.rfl, ?_⟩
  intro m _ hm
  simpa [dispose] using hm

/-- Witness for C5 on a controller with one committed marker and a live
shadow marker. -/
theorem dispose_spec_witness :
    (dispose (ControllerState.mk (some ()) [Marker.mk 1 2]
        (some (Marker.mk 9 5)))).disposablesDisposed = true ∧
    (dispose (ControllerState.mk (some ()) [Marker.mk 1 2]
        (some (Marker.mk 9 5)))).destroyedMarkers = [Marker.mk 1 2] ∧
    Marker.mk 9 5 ∉
      (dispose (ControllerState.mk (some ()) [Marker.mk 1 2]
        (some (Marker.mk 9 5)))).destroyedMarkers :=
  ⟨(dispose_spec (ControllerState.mk (some ()) [Marker.mk 1 2] (some (Marker.mk 9 5)))).1,
   (dispose_spec (ControllerState.mk (some ()) [Marker.mk 1 2] (some (Marker.mk 9 5)))).2.1,
   (dispose_spec (ControllerState.mk (some ()) [Marker.mk 1 2]
      (some (Marker.mk 9 5)))).2.2.2 (Marker.mk 9 5) rfl (by decide)⟩

/-- C7 counterexample: with the gutter reference void, a gutter mouse-move
to a fresh line does not silently no-op — `_createBreakpointMarkerAtLine`
fails its `invariant(this._gutter != null)` check (throws). -/
theorem gutter_void_hover_throws :
    handleGutterMouseMove none initialHoverState 3 0 =
      Except.error "Invariant violation" :=
  rfl

/-- C7 amended: when the gutter reference is void, a reconciliation pass
silently does nothing (markers untouched, store unread, gutter not shown),
but shadow-marker creation on hover over a fresh line aborts with an
invariant violation instead of no-opping. -/
theorem gutter_void_spec :
    (∀ (path : Option String) (store : BreakpointStore) (markers : List Marker)
        (nextId : Nat),
        update none path store markers nextId =
          { markers := markers, destroyed := [], created := [],
            gutterShown := false, storeRead := false, nextId := nextId }) ∧
    (∀ (s : HoverState) (curLine nextId : Nat),
        isLineOverLastShadowBreakpoint s curLine = false →
        handleGutterMouseMove none s curLine nextId =
          Except.error "Invariant violation") := by
  constructor
  · intro path store markers nextId
    rfl
  · intro s curLine nextId h
    simp [handleGutterMouseMove, h, createBreakpointMarkerAtLine]

/-- Witness for C7: a void-gutter reconciliation over the sample store and a
void-gutter hover while the shadow marker sits at another line. -/
theorem gutter_void_spec_witness :
    update none (some "file.js") sampleStore [Marker.mk 0 2] 7 =
      { markers := [Marker.mk 0 2], destroyed := [], created := [],
        gutterShown := false, storeRead := false, nextId := 7 } ∧
    handleGutterMouseMove none (HoverState.mk (some 2) 1 0) 3 0 =
      Except.error "Invariant violation" :=
  ⟨gutter_void_spec.1 (some "file.js") sampleStore [Marker.mk 0 2] 7,
   gutter_void_spec.2 (HoverState.mk (some 2) 1 0) 3 0 rfl⟩

/-- C8: when the editor has no path, a reconciliation pass returns without
reading the store or touching markers, a gutter click dispatches no action,
and a marker-change event dispatches no action. -/
theorem no_path_skips_store_interaction :
    (∀ (gutter : Option Unit) (store : BreakpointStore) (markers : List Marker)
        (nextId : Nat),
        update gutter none store markers nextId =
          { markers := markers, destroyed := [], created := [],
            gutterShown := false, storeRead := false, nextId := nextId }) ∧
    (∀ e : GutterClickEvent, handleGutterClick none e = []) ∧
    (∀ e : MarkerChangeEvent, handleMarkerChange none e = []) := by
  refine ⟨?_, ?_, ?_⟩
  · intro gutter store markers nextId
    cases gutter <;> rfl
  · intro e
    simp [handleGutterClick]
  · intro e
    rfl

/-- C9: a gutter click whose target carries the reserved `icon-right` class
is ignored; any other click, when the editor has a path, dispatches exactly
one `toggleBreakpoint(path, R)` at the row the external
coordinate-to-position service mapped the pointer to. -/
theorem gutterClick_spec (path : Option String) (p : String)
    (e : GutterClickEvent) :
    (e.targetHasIconRight = true → handleGutterClick path e = []) ∧
    (e.targetHasIconRight = false →
      handleGutterClick (some p) e = [Action.toggleBreakpoint p e.row]) := by
  constructor
  · intro h
    simp [handleGutterClick, h]
  · intro h
    simp [handleGutterClick, h]

/-- Witness for C9: an icon-right click at row 7 is ignored; a plain click
at row 7 toggles the breakpoint at row 7. -/
theorem gutterClick_spec_witness :
    handleGutterClick (some "file.js") (GutterClickEvent.mk true 7) = [] ∧
    handleGutterClick (some "file.js") (GutterClickEvent.mk false 7) =
      [Action.toggleBreakpoint "file.js" 7] :=
  ⟨(gutterClick_spec (some "file.js") "file.js" (GutterClickEvent.mk true 7)).1 rfl,
   (gutterClick_spec (some "file.js") "file.js" (GutterClickEvent.mk false 7)).2 rfl⟩

end BreakpointDisplayController
